import Mathlib

/-!
Shallow embedding of the `Neo4jService` class from
`src/services/neo4jService.ts` of the neo4j-mcp repository, together with
proofs about its connection state machine and its value normalizer
(`transformValue`).

Modelling conventions:
* The mutable fields of the singleton service object become an explicit
  `ServiceState` record that every operation threads.
* The external neo4j driver is abstracted: a driver handle is a `Nat` id, and
  the outcomes of the driver calls that can fail (`neo4j.driver(...)` creation
  and each `session.run(...)`) are supplied as explicit `Except` arguments
  ("oracles").  `driver.close()` and `session.close()` are modelled as always
  succeeding.
* JavaScript `Date` timestamps become `Nat`; JS numbers become `Int`
  (no claim here depends on float precision).
* `process.env`-derived defaults (`getDefaultConfig`) become an explicit
  `envCfg` argument to `connect`.
* A thrown driver error carries `message`/`code`/`stack` like a JS `Error`.
-/

namespace Neo4jMcp

/-- Structure `Neo4jConfig` from `src/types/index.ts`. -/
structure Neo4jConfig where
  uri : String
  username : String
  password : String
  database : Option String
deriving DecidableEq, Repr

/-- The fields of a thrown JS `Error` that the service reads. -/
structure JsError where
  message : String
  code : Option String
  stack : Option String
deriving DecidableEq, Repr

/-- Structure `ErrorResponse` from `src/types/index.ts`. -/
structure ErrorResponse where
  error : String
  code : Option String
  stack : Option String
deriving DecidableEq, Repr

/-- Function `createErrorResponse` from `src/utils/errorHandler.ts`, applied with only a
message (as the validation paths of `connect` do): code and stack absent. -/
def createErrorResponse (message : String) : ErrorResponse :=
  { error := message, code := none, stack := none }

/-- The `connectionStatus` enumeration of `Neo4jService`. -/
inductive ConnStatus where
  | connected
  | disconnected
  | error
deriving DecidableEq, Repr

/-- String interpolation of the status, as in
`Not connected to Neo4j. Current status: ${this.connectionStatus}`. -/
def ConnStatus.toStr : ConnStatus → String
  | .connected => "connected"
  | .disconnected => "disconnected"
  | .error => "error"

/-- The private mutable fields of the `Neo4jService` singleton. -/
structure ServiceState where
  driver : Option Nat
  config : Option Neo4jConfig
  connectionStatus : ConnStatus
  lastError : Option String
  connectionTime : Option Nat
deriving DecidableEq, Repr

/-- Field initializers of `Neo4jService`: `driver = null`, `config = null`,
`connectionStatus = 'disconnected'`, `lastError = null`, `connectionTime = null`. -/
def initialState : ServiceState :=
  { driver := none, config := none, connectionStatus := .disconnected,
    lastError := none, connectionTime := none }

/-- The masked config embedded in the object returned by `getStatus`
(uri, username, database — never the password). -/
structure MaskedConfig where
  uri : String
  username : String
  database : Option String
deriving DecidableEq, Repr

/-- The object returned by `Neo4jService.getStatus`. -/
structure StatusReport where
  status : ConnStatus
  config : Option MaskedConfig
  connectionTime : Option Nat
  lastError : Option String
deriving DecidableEq, Repr

/-- Method `Neo4jService.getStatus` (lines 27–38). -/
def getStatus (s : ServiceState) : StatusReport :=
  { status := s.connectionStatus,
    config := s.config.map fun c => { uri := c.uri, username := c.username, database := c.database },
    connectionTime := s.connectionTime,
    lastError := s.lastError }

/-- Method `Neo4jService.connect` (lines 44–110).

Arguments beyond the state: the optional explicit config (`config?`), the
environment-derived default config (standing for `getDefaultConfig()`), the
outcome of `neo4j.driver(...)` creation (a fresh handle id, or a thrown
error caught by the outer `catch`), the outcome of the verification query
`RETURN 1 as test` (caught by the inner `catch`), and the current time for
`new Date()`.

Faithful points of the source: the stored config is replaced *before*
validation; validation returns early (before any driver interaction) when
uri/username/password is empty (JS falsiness of `''`); on creation failure the
`driver` field keeps its previous value and status becomes `error`; on
verification failure the freshly created handle *stays* in `driver`, status
becomes `error` and the error message is recorded; on success status becomes
`connected`, the timestamp is set and `lastError` is cleared.  Closing of a
pre-existing driver and of the scoped verification session is modelled as
always succeeding. -/
def connect (s : ServiceState) (cfg? : Option Neo4jConfig) (envCfg : Neo4jConfig)
    (createRes : Except JsError Nat) (verifyRes : Except JsError Unit) (now : Nat) :
    ServiceState × Option ErrorResponse :=
  let cfg := cfg?.getD envCfg
  let s1 : ServiceState := { s with config := some cfg }
  if cfg.uri = "" then (s1, some (createErrorResponse "Neo4j URI is required"))
  else if cfg.username = "" then (s1, some (createErrorResponse "Neo4j username is required"))
  else if cfg.password = "" then (s1, some (createErrorResponse "Neo4j password is required"))
  else
    match createRes with
    | .error e =>
        ({ s1 with connectionStatus := .error, lastError := some e.message },
         some { error := "Failed to connect to Neo4j: " ++ e.message,
                code := e.code, stack := e.stack })
    | .ok handle =>
        match verifyRes with
        | .error e =>
            ({ s1 with
                driver := some handle
                connectionStatus := .error
                lastError := some e.message },
             some { error := "Connection test failed: " ++ e.message,
                    code := e.code, stack := e.stack })
        | .ok _ =>
            ({ s1 with
                driver := some handle
                connectionStatus := .connected
                connectionTime := some now
                lastError := none },
             none)

/-- Method `Neo4jService.disconnect` (lines 241–250): guarded on `this.driver` being
non-null; then clears driver, config, timestamp and sets status to
`disconnected`.  Note that `lastError` is not touched. -/
def disconnect (s : ServiceState) : ServiceState :=
  match s.driver with
  | some _ =>
      { driver := none, config := none, connectionStatus := .disconnected,
        lastError := s.lastError, connectionTime := none }
  | none => s

/-- States of the service reachable from the initial state by the
state-mutating operations (`connect` with arbitrary arguments and driver
outcomes, and `disconnect`).  `getStatus`, `executeQuery` and
`getDatabaseInfo` never write the fields, so they contribute no transitions. -/
inductive Reachable : ServiceState → Prop where
  | init : Reachable initialState
  | connectStep (s : ServiceState) (cfg? : Option Neo4jConfig) (envCfg : Neo4jConfig)
      (createRes : Except JsError Nat) (verifyRes : Except JsError Unit) (now : Nat) :
      Reachable s → Reachable (connect s cfg? envCfg createRes verifyRes now).1
  | disconnectStep (s : ServiceState) : Reachable s → Reachable (disconnect s)

/-! ## Driver values and the normalizer `transformValue` -/

/-- Values as returned by the neo4j driver and as produced by the normalizer.
`vint` is the driver's 64-bit Integer wrapper (recognised via `neo4j.isInt`);
`vnum` is a plain JS number.  `vnode`/`vrel`/`vpath` are the driver's tagged
`Node`/`Relationship`/`Path` objects (`value.constructor.name` dispatch);
`varr` is a JS array and `vobj` a plain string-keyed object whose key order is
insertion order, as JS `for...in` iterates it. -/
inductive Value where
  | vnull : Value
  | vbool : Bool → Value
  | vnum : Int → Value
  | vint : Int → Value
  | vstr : String → Value
  | vnode : List (String × Value) → Int → List String → Value
  | vrel : List (String × Value) → Int → String → Int → Int → Value
  | vpath : List (Value × Value × Value) → Value
  | varr : List Value → Value
  | vobj : List (String × Value) → Value
deriving Repr

/-- JS property assignment `obj[k] = v` on an insertion-ordered object:
replaces the value in place when the key exists, appends otherwise. -/
def setKey : List (String × Value) → String → Value → List (String × Value)
  | [], k, v => [(k, v)]
  | (k', v') :: rest, k, v =>
      if k' = k then (k', v) :: rest else (k', v') :: setKey rest k v

/-- JS property read `obj[k]`. -/
def lookupKey : List (String × Value) → String → Option Value
  | [], _ => none
  | (k', v') :: rest, k => if k' = k then some v' else lookupKey rest k

mutual

/-- Method `Neo4jService.transformValue` (lines 255–309).

* null/undefined pass through;
* a driver Integer becomes a plain number (`toNumber()`);
* a `Node` becomes `{...properties}` with `id` and `labels` then assigned —
  note the properties are spread verbatim, *not* recursively transformed;
* a `Relationship` becomes `{...properties}` with `id`, `type`,
  `startNodeId`, `endNodeId` assigned;
* a `Path` becomes `{segments: [...]}` with each segment's start,
  relationship and end recursively transformed;
* arrays map the transformation over their elements;
* other objects transform each field value, preserving keys;
* remaining scalars pass through. -/
def transformValue : Value → Value
  | .vnull => .vnull
  | .vint n => .vnum n
  | .vnode props ident labels =>
      .vobj (setKey (setKey props "id" (.vnum ident)) "labels"
        (.varr (labels.map Value.vstr)))
  | .vrel props ident rtype startId endId =>
      .vobj (setKey (setKey (setKey (setKey props "id" (.vnum ident))
        "type" (.vstr rtype)) "startNodeId" (.vnum startId)) "endNodeId" (.vnum endId))
  | .vpath segments => .vobj [("segments", .varr (transformSegments segments))]
  | .varr items => .varr (transformList items)
  | .vobj fields => .vobj (transformFields fields)
  | .vbool b => .vbool b
  | .vnum n => .vnum n
  | .vstr s => .vstr s

/-- Loop `value.map(item => this.transformValue(item))` over an array. -/
def transformList : List Value → List Value
  | [] => []
  | v :: vs => transformValue v :: transformList vs

/-- The `for (const key in value)` loop over an object's fields. -/
def transformFields : List (String × Value) → List (String × Value)
  | [] => []
  | (k, v) :: rest => (k, transformValue v) :: transformFields rest

/-- Loop `value.segments.map(segment => ({start: ..., relationship: ..., end: ...}))`. -/
def transformSegments : List (Value × Value × Value) → List Value
  | [] => []
  | (s, r, e) :: rest =>
      .vobj [("start", transformValue s), ("relationship", transformValue r),
             ("end", transformValue e)] :: transformSegments rest

end

mutual

/-- A value already built only from the plain shapes of spec §3: null,
booleans, numbers, strings, arrays and string-keyed objects — no
driver-typed values (`vint`, `vnode`, `vrel`, `vpath`). -/
def isPlain : Value → Bool
  | .vnull => true
  | .vbool _ => true
  | .vnum _ => true
  | .vstr _ => true
  | .vint _ => false
  | .vnode _ _ _ => false
  | .vrel _ _ _ _ _ => false
  | .vpath _ => false
  | .varr items => isPlainList items
  | .vobj fields => isPlainFields fields

/-- Every element of the list is plain. -/
def isPlainList : List Value → Bool
  | [] => true
  | v :: vs => isPlain v && isPlainList vs

/-- Every field value of the object is plain. -/
def isPlainFields : List (String × Value) → Bool
  | [] => true
  | (_, v) :: rest => isPlain v && isPlainFields rest

end

/-! ## `executeQuery` and `getDatabaseInfo`, with session traces -/

/-- Events on the scoped session resource: creation via `this.driver.session(...)`
and release via `await session.close()` in a `finally` block. -/
inductive SessionEvent where
  | opened
  | closed
deriving DecidableEq, Repr

/-- Structure `QueryRequest` from `src/types/index.ts`. -/
structure QueryRequest where
  query : String
  params : Option (List (String × Value))

/-- The parts of the driver's `session.run` result that `executeQuery` reads:
the records (each a key-ordered list of entries) and the two timing counters
(`toNumber()` applied). -/
structure RunOutcome where
  records : List (List (String × Value))
  resultAvailableAfter : Int
  resultConsumedAfter : Int

/-- Structure `QueryResponse` from `src/types/index.ts`: transformed records plus the
timing summary. -/
structure QueryResponse where
  records : List (List (String × Value))
  resultAvailableAfter : Int
  resultConsumedAfter : Int

/-- JS `x || 'fallback'` on a string: the fallback replaces the empty string. -/
def jsOrStr (s fallback : String) : String :=
  if s = "" then fallback else s

/-- The record-reshaping loop of `executeQuery`:
`record.keys.forEach(key => obj[key] = transformValue(record.get(key)))`. -/
def transformRecord (rec : List (String × Value)) : List (String × Value) :=
  rec.foldl (fun acc kv => setKey acc kv.1 (transformValue kv.2)) []

/-- Method `Neo4jService.executeQuery` (lines 115–174).

Returns the trace of session events alongside the result.  Guards first: a
missing driver yields the "not initialized" error, a status other than
`connected` yields the "not connected" error — both before any session is
created.  Otherwise the session is opened, the query outcome (`runRes`) is
consumed inside `try`, and the `finally` closes the session on both the
success and the error path.  The operation never writes the service state. -/
def executeQuery (s : ServiceState) (_req : QueryRequest)
    (runRes : Except JsError RunOutcome) :
    List SessionEvent × Except ErrorResponse QueryResponse :=
  match s.driver with
  | none =>
      ([], .error (createErrorResponse "Neo4j driver not initialized. Call connect() first."))
  | some _ =>
      if s.connectionStatus ≠ ConnStatus.connected then
        ([], .error (createErrorResponse
          ("Not connected to Neo4j. Current status: " ++ s.connectionStatus.toStr)))
      else
        match runRes with
        | .ok result =>
            ([.opened, .closed],
             .ok { records := result.records.map transformRecord,
                   resultAvailableAfter := result.resultAvailableAfter,
                   resultConsumedAfter := result.resultConsumedAfter })
        | .error e =>
            ([.opened, .closed],
             .error { error := "Error executing Neo4j query: " ++ jsOrStr e.message "Unknown error",
                      code := e.code, stack := e.stack })

/-- Structure `DatabaseInfo` from `src/types/index.ts`. -/
structure DatabaseInfo where
  version : String
  edition : String
  database : String
  nodeCount : Int
  relationshipCount : Int
  labels : List String
  relationshipTypes : List String
deriving DecidableEq, Repr

/-- The version/edition query text of `getDatabaseInfo`. -/
def qComponents : String :=
  "CALL dbms.components() YIELD name, versions, edition RETURN name, versions, edition"

/-- The database-name query text of `getDatabaseInfo`. -/
def qDbInfo : String := "CALL db.info() YIELD name RETURN name"

/-- The node/relationship count query text of `getDatabaseInfo` (the template
literal's surrounding whitespace and newlines collapsed). -/
def qCounts : String :=
  "MATCH (n) RETURN count(n) as nodeCount, count(()-[]->()) as relationshipCount"

/-- The label-list query text of `getDatabaseInfo`. -/
def qLabels : String := "CALL db.labels() YIELD label RETURN collect(label) as labels"

/-- The relationship-type-list query text of `getDatabaseInfo`. -/
def qRelTypes : String :=
  "CALL db.relationshipTypes() YIELD relationshipType RETURN collect(relationshipType) as relationshipTypes"

/-- Outcomes of the five `session.run` calls of `getDatabaseInfo`, with the
record-field extraction abstracted to the optionally-present payloads the code
reads (each `records?.[0]?.get(...)` chain yields `none` when absent, and the
code's `|| fallback` supplies `'Unknown'`, `0` or `[]`):
version and edition strings, database name, node and relationship counts,
label list, relationship-type list. -/
structure InfoRuns where
  components : Except JsError (Option String × Option String)
  dbInfo : Except JsError (Option String)
  counts : Except JsError (Option Int × Option Int)
  labels : Except JsError (Option (List String))
  relTypes : Except JsError (Option (List String))

/-- The error response built by the `catch` of `getDatabaseInfo`. -/
def infoError (e : JsError) : ErrorResponse :=
  { error := "Error getting database info: " ++ jsOrStr e.message "Unknown error",
    code := e.code, stack := e.stack }

/-- Method `Neo4jService.getDatabaseInfo` (lines 179–236).

Returns the session-event trace, the list of query texts actually issued (in
order, stopping at the first failing one), and the result.  The only guard is
`!this.driver` — the connection status is never consulted.  When the driver
exists a single session is opened, the five fixed queries run in sequence
inside `try`, any failure aborts into `catch`, and `finally` closes the
session on every path.  The state is never written. -/
def getDatabaseInfo (s : ServiceState) (runs : InfoRuns) :
    List SessionEvent × List String × Except ErrorResponse DatabaseInfo :=
  match s.driver with
  | none =>
      ([], [], .error (createErrorResponse "Neo4j driver not initialized. Call connect() first."))
  | some _ =>
      match runs.components with
      | .error e => ([.opened, .closed], [qComponents], .error (infoError e))
      | .ok comp =>
        match runs.dbInfo with
        | .error e => ([.opened, .closed], [qComponents, qDbInfo], .error (infoError e))
        | .ok dbName =>
          match runs.counts with
          | .error e =>
              ([.opened, .closed], [qComponents, qDbInfo, qCounts], .error (infoError e))
          | .ok cnts =>
            match runs.labels with
            | .error e =>
                ([.opened, .closed], [qComponents, qDbInfo, qCounts, qLabels],
                 .error (infoError e))
            | .ok lbls =>
              match runs.relTypes with
              | .error e =>
                  ([.opened, .closed], [qComponents, qDbInfo, qCounts, qLabels, qRelTypes],
                   .error (infoError e))
              | .ok rts =>
                  ([.opened, .closed], [qComponents, qDbInfo, qCounts, qLabels, qRelTypes],
                   .ok { version := (comp.1).getD "Unknown",
                         edition := (comp.2).getD "Unknown",
                         database := dbName.getD "Unknown",
                         nodeCount := (cnts.1).getD 0,
                         relationshipCount := (cnts.2).getD 0,
                         labels := lbls.getD [],
                         relationshipTypes := rts.getD [] })

/-! ## Shared sample values -/

/-- A sample environment-derived default config, standing for the
`getDefaultConfig()` fallbacks with no environment variables set. -/
def sampleEnvCfg : Neo4jConfig :=
  { uri := "neo4j://localhost:7687", username := "neo4j", password := "", database := none }

/-- A fully populated, valid connection config. -/
def okCfg : Neo4jConfig :=
  { uri := "neo4j://localhost:7687", username := "neo4j", password := "secret",
    database := some "neo4j" }

/-- A config whose `uri` is empty, so that validation fails. -/
def invalidCfg : Neo4jConfig :=
  { uri := "", username := "neo4j", password := "secret", database := none }

/-- The state after a fully successful `connect` from the initial state. -/
def connectedState : ServiceState :=
  (connect initialState (some okCfg) sampleEnvCfg (.ok 5) (.ok ()) 42).1

/-- The state after a `connect` from the initial state that failed validation:
the rejected config is stored but nothing else changed. -/
def staleConfigState : ServiceState :=
  (connect initialState (some invalidCfg) sampleEnvCfg (.ok 1) (.ok ()) 0).1

/-- The state after a `connect` whose verification query failed: the fresh
handle is retained and the status is `error`. -/
def verifyFailedState : ServiceState :=
  (connect initialState (some okCfg) sampleEnvCfg (.ok 5)
    (.error { message := "boom", code := some "Neo.ClientError", stack := none }) 42).1

/-- A sample query request. -/
def sampleReq : QueryRequest := { query := "RETURN 1 as test", params := none }

/-- A sample successful `session.run` outcome with no records. -/
def sampleRunOk : Except JsError RunOutcome :=
  .ok { records := [], resultAvailableAfter := 1, resultConsumedAfter := 0 }

/-- A sample failed `session.run` outcome. -/
def sampleRunErr : Except JsError RunOutcome :=
  .error { message := "syntax error", code := some "Neo.ClientError.Statement.SyntaxError",
           stack := none }

/-- Sample outcomes for `getDatabaseInfo` in which all five queries succeed. -/
def allOkRuns : InfoRuns :=
  { components := .ok (some "5.12.0", some "community"),
    dbInfo := .ok (some "neo4j"),
    counts := .ok (some 10, some 4),
    labels := .ok (some ["Person"]),
    relTypes := .ok (some ["KNOWS"]) }

/-- Sample outcomes for `getDatabaseInfo` in which the third query fails. -/
def thirdFailsRuns : InfoRuns :=
  { components := .ok (some "5.12.0", some "community"),
    dbInfo := .ok (some "neo4j"),
    counts := .error { message := "boom", code := none, stack := none },
    labels := .ok (some ["Person"]),
    relTypes := .ok (some ["KNOWS"]) }

/-- An already-plain nested value (no driver-typed parts). -/
def samplePlain : Value :=
  .vobj [("a", .vnum 1), ("b", .varr [.vstr "x", .vnull, .vbool true])]

/-- A driver node whose property bag holds a driver Integer — exactly what the
driver returns for a node with an integral property. -/
def nodeWithIntProp : Value := .vnode [("age", .vint 30)] 7 []

/-! ## Helper lemmas -/

/-- The session trace of `executeQuery` is empty (a guard refused) or exactly
one open followed by one close. -/
theorem executeQuery_trace_cases (s : ServiceState) (req : QueryRequest)
    (run : Except JsError RunOutcome) :
    (executeQuery s req run).1 = [] ∨
      (executeQuery s req run).1 = [SessionEvent.opened, SessionEvent.closed] := by
  cases hd : s.driver with
  | none => left; simp [executeQuery, hd]
  | some d =>
      by_cases hc : s.connectionStatus = ConnStatus.connected
      · cases run <;> right <;> simp [executeQuery, hd, hc]
      · left; simp [executeQuery, hd, hc]

/-- With a live handle and `connected` status, `executeQuery` opens and closes
one session on both the success and the failure path. -/
theorem executeQuery_trace_connected (s : ServiceState) (req : QueryRequest)
    (run : Except JsError RunOutcome) (d : Nat) (hd : s.driver = some d)
    (hc : s.connectionStatus = ConnStatus.connected) :
    (executeQuery s req run).1 = [SessionEvent.opened, SessionEvent.closed] := by
  cases run <;> simp [executeQuery, hd, hc]

/-- With a live handle, `getDatabaseInfo` opens and closes one session on
every path, whichever sub-queries fail. -/
theorem getDatabaseInfo_trace (s : ServiceState) (runs : InfoRuns) (d : Nat)
    (hd : s.driver = some d) :
    (getDatabaseInfo s runs).1 = [SessionEvent.opened, SessionEvent.closed] := by
  rcases runs with ⟨c, db, cn, lb, rt⟩
  cases c <;> cases db <;> cases cn <;> cases lb <;> cases rt <;>
    simp [getDatabaseInfo, hd]

/-- With a live handle, the first query `getDatabaseInfo` issues is always the
components query. -/
theorem getDatabaseInfo_first_query (s : ServiceState) (runs : InfoRuns) (d : Nat)
    (hd : s.driver = some d) :
    (getDatabaseInfo s runs).2.1.head? = some qComponents := by
  rcases runs with ⟨c, db, cn, lb, rt⟩
  cases c <;> cases db <;> cases cn <;> cases lb <;> cases rt <;>
    simp [getDatabaseInfo, hd]

/-- Without a handle, `getDatabaseInfo` refuses before opening a session. -/
theorem getDatabaseInfo_no_driver (s : ServiceState) (runs : InfoRuns)
    (hd : s.driver = none) :
    getDatabaseInfo s runs =
      ([], [], .error (createErrorResponse
        "Neo4j driver not initialized. Call connect() first.")) := by
  simp [getDatabaseInfo, hd]

/-- Reading a key just set by `setKey` yields the new value. -/
theorem lookupKey_setKey_same (l : List (String × Value)) (k : String) (v : Value) :
    lookupKey (setKey l k v) k = some v := by
  induction l with
  | nil => simp [setKey, lookupKey]
  | cons hd tl ih =>
      by_cases h : hd.1 = k
      · simp [setKey, lookupKey, h]
      · simp [setKey, lookupKey, h, ih]

/-- Reading any other key is unaffected by `setKey`. -/
theorem lookupKey_setKey_other (l : List (String × Value)) (k k' : String) (v : Value)
    (h : k' ≠ k) :
    lookupKey (setKey l k v) k' = lookupKey l k' := by
  induction l with
  | nil => simp [setKey, lookupKey, Ne.symm h]
  | cons hd tl ih =>
      by_cases hk : hd.1 = k
      · simp [setKey, lookupKey, hk, Ne.symm h]
      · simp [setKey, lookupKey, hk, ih]

/-! ## Claim theorems -/

/-- C5: for any config in which uri, username or password is empty,
`connect` returns a validation error result naming the missing field; the
result is independent of the driver-creation and verification outcomes (no
network call is attempted) and the driver handle is unchanged (none is
created). -/
theorem connect_validation_fails_fast
    (s : ServiceState) (cfg envCfg : Neo4jConfig)
    (c₁ c₂ : Except JsError Nat) (v₁ v₂ : Except JsError Unit) (n₁ n₂ : Nat)
    (h : cfg.uri = "" ∨ cfg.username = "" ∨ cfg.password = "") :
    connect s (some cfg) envCfg c₁ v₁ n₁ = connect s (some cfg) envCfg c₂ v₂ n₂ ∧
    (connect s (some cfg) envCfg c₁ v₁ n₁).1.driver = s.driver ∧
    (connect s (some cfg) envCfg c₁ v₁ n₁).2 =
      some (createErrorResponse
        (if cfg.uri = "" then "Neo4j URI is required"
         else if cfg.username = "" then "Neo4j username is required"
         else "Neo4j password is required")) := by
  by_cases hu : cfg.uri = ""
  · simp [connect, hu]
  · by_cases hn : cfg.username = ""
    · simp [connect, hu, hn]
    · have hp : cfg.password = "" := by tauto
      simp [connect, hu, hn, hp]

/-- Witness for C5 at the concrete config with an empty uri. -/
theorem connect_validation_fails_fast_w :
    (connect initialState (some invalidCfg) sampleEnvCfg (.ok 1) (.ok ()) 0).2 =
      some (createErrorResponse "Neo4j URI is required") := by
  have h := (connect_validation_fails_fast initialState invalidCfg sampleEnvCfg
      (.ok 1) (.ok 1) (.ok ()) (.ok ()) 0 0 (Or.inl (by decide))).2.2
  simpa [invalidCfg] using h

/-- C9: when `connect` fails validation, the driver handle, status, timestamp
and last error are untouched, but the stored config has already been replaced
by the rejected config, which a subsequent `status()` therefore reports. -/
theorem connect_validation_replaces_config
    (s : ServiceState) (cfg envCfg : Neo4jConfig)
    (c : Except JsError Nat) (v : Except JsError Unit) (n : Nat)
    (h : cfg.uri = "" ∨ cfg.username = "" ∨ cfg.password = "") :
    (connect s (some cfg) envCfg c v n).1 = { s with config := some cfg } ∧
    getStatus (connect s (some cfg) envCfg c v n).1 =
      { status := s.connectionStatus,
        config := some { uri := cfg.uri, username := cfg.username, database := cfg.database },
        connectionTime := s.connectionTime,
        lastError := s.lastError } := by
  by_cases hu : cfg.uri = ""
  · simp [connect, getStatus, hu]
  · by_cases hn : cfg.username = ""
    · simp [connect, getStatus, hu, hn]
    · have hp : cfg.password = "" := by tauto
      simp [connect, getStatus, hu, hn, hp]

/-- Witness for C9: from the initial state, the failed-validation connect
leaves everything but the config unchanged, and `status()` reports the
rejected uri/username/database. -/
theorem connect_validation_replaces_config_w :
    getStatus staleConfigState =
      { status := ConnStatus.disconnected,
        config := some { uri := "", username := "neo4j", database := none },
        connectionTime := none, lastError := none } := by
  have h := (connect_validation_replaces_config initialState invalidCfg sampleEnvCfg
      (.ok 1) (.ok ()) 0 (Or.inl (by decide))).2
  simpa [staleConfigState, initialState, invalidCfg] using h

/-- C4: when the verification query of `connect` fails, the status becomes
`error`, the failure reason is recorded as the last error, an error result is
returned, and the newly created driver handle is still retained. -/
theorem connect_verify_failure_retains_handle
    (s : ServiceState) (cfg envCfg : Neo4jConfig) (handle : Nat) (e : JsError) (now : Nat)
    (hu : cfg.uri ≠ "") (hn : cfg.username ≠ "") (hp : cfg.password ≠ "") :
    ((connect s (some cfg) envCfg (.ok handle) (.error e) now).1.connectionStatus
      = ConnStatus.error) ∧
    ((connect s (some cfg) envCfg (.ok handle) (.error e) now).1.lastError
      = some e.message) ∧
    ((connect s (some cfg) envCfg (.ok handle) (.error e) now).2 =
      some { error := "Connection test failed: " ++ e.message,
             code := e.code, stack := e.stack }) ∧
    ((connect s (some cfg) envCfg (.ok handle) (.error e) now).1.driver
      = some handle) := by
  simp [connect, hu, hn, hp]

/-- Witness for C4 at a concrete valid config and failing verification. -/
theorem connect_verify_failure_retains_handle_w :
    verifyFailedState.connectionStatus = ConnStatus.error ∧
    verifyFailedState.lastError = some "boom" ∧
    verifyFailedState.driver = some 5 := by
  have h := connect_verify_failure_retains_handle initialState okCfg sampleEnvCfg 5
      { message := "boom", code := some "Neo.ClientError", stack := none } 42
      (by decide) (by decide) (by decide)
  exact ⟨h.1, h.2.1, h.2.2.2⟩

/-- C6: `executeQuery` with no driver handle returns the "driver not
initialized" error; with a handle but a status other than `connected` it
returns the "not connected" error; in particular before any `connect` (the
initial state) it returns the state error.  The model is a total function, so
no exception escapes. -/
theorem executeQuery_state_guards
    (s : ServiceState) (req : QueryRequest) (run : Except JsError RunOutcome) :
    (s.driver = none →
      executeQuery s req run =
        ([], .error (createErrorResponse
          "Neo4j driver not initialized. Call connect() first."))) ∧
    (∀ d, s.driver = some d → s.connectionStatus ≠ ConnStatus.connected →
      executeQuery s req run =
        ([], .error (createErrorResponse
          ("Not connected to Neo4j. Current status: " ++ s.connectionStatus.toStr)))) ∧
    executeQuery initialState req run =
      ([], .error (createErrorResponse
        "Neo4j driver not initialized. Call connect() first.")) := by
  refine ⟨fun hd => ?_, fun d hd hc => ?_, ?_⟩
  · simp [executeQuery, hd]
  · simp [executeQuery, hd, hc]
  · simp [executeQuery, initialState]

/-- Witness for C6 at the initial state. -/
theorem executeQuery_state_guards_w :
    executeQuery initialState sampleReq sampleRunOk =
      ([], .error (createErrorResponse
        "Neo4j driver not initialized. Call connect() first.")) :=
  (executeQuery_state_guards initialState sampleReq sampleRunOk).2.2

/-- C1 counterexample: the claim "after `disconnect`, `status()` reports
`disconnected`, null timestamp and null config, for every reachable state" is
false.  The state reached from the initial state by a `connect` that failed
validation is reachable, has no driver handle (so `disconnect` is a no-op on
it), and after `disconnect` its `status()` still reports the stored rejected
config. -/
theorem disconnect_claim_cex :
    Reachable staleConfigState ∧
    disconnect staleConfigState = staleConfigState ∧
    ¬ (getStatus (disconnect staleConfigState)).config = none ∧
    (getStatus (disconnect staleConfigState)).config =
      some { uri := "", username := "neo4j", database := none } := by
  refine ⟨Reachable.connectStep initialState (some invalidCfg) sampleEnvCfg
    (.ok 1) (.ok ()) 0 Reachable.init, by decide, by decide, by decide⟩

/-- C1 amended: after `disconnect` from a state holding a driver handle,
`status()` reports `disconnected` with null config and null timestamp (the
last error is kept); when no handle exists `disconnect` is a no-op, so a
config stored by a failed `connect` survives it.  In every case the handle is
gone afterwards. -/
theorem disconnect_with_handle_clears_state (s : ServiceState) :
    (∀ d, s.driver = some d →
      getStatus (disconnect s) =
        { status := ConnStatus.disconnected, config := none, connectionTime := none,
          lastError := s.lastError }) ∧
    (s.driver = none → disconnect s = s) ∧
    (disconnect s).driver = none := by
  refine ⟨fun d hd => ?_, fun hd => ?_, ?_⟩
  · simp [disconnect, getStatus, hd]
  · simp [disconnect, hd]
  · cases hd : s.driver <;> simp [disconnect, hd]

/-- Witness for the amended C1 at the fully connected state. -/
theorem disconnect_with_handle_clears_state_w :
    getStatus (disconnect connectedState) =
      { status := ConnStatus.disconnected, config := none, connectionTime := none,
        lastError := none } := by
  have h := (disconnect_with_handle_clears_state connectedState).1 5 (by decide)
  have hl : connectedState.lastError = none := by decide
  rw [h, hl]

/-- C2 counterexample: the claim says `getDatabaseInfo()` issues "exactly
four" fixed administrative queries, but on a concrete all-success execution
the list of issued query texts has length five, not four. -/
theorem getDatabaseInfo_four_queries_cex :
    ((getDatabaseInfo connectedState allOkRuns).2.1).length = 5 ∧
    ¬ ((getDatabaseInfo connectedState allOkRuns).2.1).length = 4 := by
  constructor <;> decide

/-- C2 amended: with a live handle and all sub-queries succeeding,
`getDatabaseInfo` issues exactly the five fixed administrative queries in
order (components/version+edition, database name, node+relationship counts,
label list, relationship-type list) against one scoped session (opened and
closed once), and assembles the one consolidated result. -/
theorem getDatabaseInfo_five_queries
    (s : ServiceState) (d : Nat) (hd : s.driver = some d)
    (comp : Option String × Option String) (dbn : Option String)
    (cnts : Option Int × Option Int) (lbls rts : Option (List String)) :
    getDatabaseInfo s
        { components := .ok comp, dbInfo := .ok dbn, counts := .ok cnts,
          labels := .ok lbls, relTypes := .ok rts } =
      ([SessionEvent.opened, SessionEvent.closed],
       [qComponents, qDbInfo, qCounts, qLabels, qRelTypes],
       .ok { version := comp.1.getD "Unknown", edition := comp.2.getD "Unknown",
             database := dbn.getD "Unknown", nodeCount := cnts.1.getD 0,
             relationshipCount := cnts.2.getD 0, labels := lbls.getD [],
             relationshipTypes := rts.getD [] }) := by
  simp [getDatabaseInfo, hd]

/-- Witness for the amended C2 at the connected state with all five queries
succeeding. -/
theorem getDatabaseInfo_five_queries_w :
    getDatabaseInfo connectedState allOkRuns =
      ([SessionEvent.opened, SessionEvent.closed],
       [qComponents, qDbInfo, qCounts, qLabels, qRelTypes],
       .ok { version := "5.12.0", edition := "community", database := "neo4j",
             nodeCount := 10, relationshipCount := 4, labels := ["Person"],
             relationshipTypes := ["KNOWS"] }) := by
  have h := getDatabaseInfo_five_queries connectedState 5 (by decide)
      (some "5.12.0", some "community") (some "neo4j") (some 10, some 4)
      (some ["Person"]) (some ["KNOWS"])
  simpa [allOkRuns] using h

/-- C3: the session traces of `executeQuery` and `getDatabaseInfo` always
balance: closes equal opens, at most one session per execution, so every
execution that opens a session closes it exactly once, on the success path
and on every failure path.  Moreover any execution that gets past the guards
produces exactly one open followed by one close. -/
theorem session_released_exactly_once
    (s : ServiceState) (req : QueryRequest) (run : Except JsError RunOutcome)
    (runs : InfoRuns) :
    ((executeQuery s req run).1.count SessionEvent.closed =
      (executeQuery s req run).1.count SessionEvent.opened) ∧
    (executeQuery s req run).1.count SessionEvent.opened ≤ 1 ∧
    ((getDatabaseInfo s runs).1.count SessionEvent.closed =
      (getDatabaseInfo s runs).1.count SessionEvent.opened) ∧
    (getDatabaseInfo s runs).1.count SessionEvent.opened ≤ 1 ∧
    (∀ d, s.driver = some d → s.connectionStatus = ConnStatus.connected →
      (executeQuery s req run).1 = [SessionEvent.opened, SessionEvent.closed]) ∧
    (∀ d, s.driver = some d →
      (getDatabaseInfo s runs).1 = [SessionEvent.opened, SessionEvent.closed]) := by
  have hi : (getDatabaseInfo s runs).1 = [] ∨
      (getDatabaseInfo s runs).1 = [SessionEvent.opened, SessionEvent.closed] := by
    cases hd : s.driver with
    | none => left; simp [getDatabaseInfo, hd]
    | some d => right; exact getDatabaseInfo_trace s runs d hd
  refine ⟨?_, ?_, ?_, ?_,
    fun d hd hc => executeQuery_trace_connected s req run d hd hc,
    fun d hd => getDatabaseInfo_trace s runs d hd⟩
  · rcases executeQuery_trace_cases s req run with h | h <;> rw [h] <;> decide
  · rcases executeQuery_trace_cases s req run with h | h <;> rw [h] <;> decide
  · rcases hi with h | h <;> rw [h] <;> decide
  · rcases hi with h | h <;> rw [h] <;> decide

/-- Witness for C3: with a live connected handle, both a failing query
execution and an info call with a failing third sub-query still close their
session exactly once. -/
theorem session_released_exactly_once_w :
    (executeQuery connectedState sampleReq sampleRunErr).1 =
      [SessionEvent.opened, SessionEvent.closed] ∧
    (getDatabaseInfo connectedState thirdFailsRuns).1 =
      [SessionEvent.opened, SessionEvent.closed] := by
  have h := session_released_exactly_once connectedState sampleReq sampleRunErr
      thirdFailsRuns
  exact ⟨h.2.2.2.2.1 5 (by decide) (by decide), h.2.2.2.2.2 5 (by decide)⟩

/-- C10: `getDatabaseInfo` never consults the connection status — its result
is invariant under changing the status — and with a handle present it opens
its session and issues its queries (starting with the components query) even
when the status is `error`; `executeQuery`, by contrast, refuses with the
"not connected" error whenever the status is not `connected`. -/
theorem getDatabaseInfo_ignores_status
    (s : ServiceState) (runs : InfoRuns) (c : ConnStatus) (req : QueryRequest)
    (run : Except JsError RunOutcome) :
    getDatabaseInfo { s with connectionStatus := c } runs = getDatabaseInfo s runs ∧
    (∀ d, s.driver = some d →
      (getDatabaseInfo s runs).2.1.head? = some qComponents ∧
      (getDatabaseInfo s runs).1 = [SessionEvent.opened, SessionEvent.closed]) ∧
    (∀ d, s.driver = some d → s.connectionStatus ≠ ConnStatus.connected →
      executeQuery s req run =
        ([], .error (createErrorResponse
          ("Not connected to Neo4j. Current status: " ++ s.connectionStatus.toStr)))) := by
  refine ⟨rfl,
    fun d hd => ⟨getDatabaseInfo_first_query s runs d hd, getDatabaseInfo_trace s runs d hd⟩,
    fun d hd hc => by simp [executeQuery, hd, hc]⟩

/-- Witness for C10 at the retained-handle state left by a failed
verification (`status = error`): `getDatabaseInfo` proceeds while
`executeQuery` refuses. -/
theorem getDatabaseInfo_ignores_status_w :
    verifyFailedState.connectionStatus = ConnStatus.error ∧
    (getDatabaseInfo verifyFailedState allOkRuns).1 =
      [SessionEvent.opened, SessionEvent.closed] ∧
    executeQuery verifyFailedState sampleReq sampleRunOk =
      ([], .error (createErrorResponse
        ("Not connected to Neo4j. Current status: " ++
          verifyFailedState.connectionStatus.toStr))) := by
  have h := getDatabaseInfo_ignores_status verifyFailedState allOkRuns
      ConnStatus.connected sampleReq sampleRunOk
  exact ⟨by decide, (h.2.1 5 (by decide)).2, h.2.2 5 (by decide) (by decide)⟩

/-- C7: normalizing a Node-tagged value copies the declared property bag and
then assigns `id` (the numeric identity) and `labels` (the label list in
driver order, not sorted): every key other than `id`/`labels` reads back its
declared value, `id` reads the identity, `labels` reads the label list, and
the spec's example evaluates as stated. -/
theorem transformValue_node :
    (∀ (props : List (String × Value)) (ident : Int) (labels : List String),
      transformValue (.vnode props ident labels) =
        .vobj (setKey (setKey props "id" (.vnum ident)) "labels"
          (.varr (labels.map Value.vstr)))) ∧
    (∀ (props : List (String × Value)) (ident : Int) (labels : List String)
      (k : String), k ≠ "id" → k ≠ "labels" →
      lookupKey (setKey (setKey props "id" (.vnum ident)) "labels"
        (.varr (labels.map Value.vstr))) k = lookupKey props k) ∧
    (∀ (props : List (String × Value)) (ident : Int) (labels : List String),
      lookupKey (setKey (setKey props "id" (.vnum ident)) "labels"
        (.varr (labels.map Value.vstr))) "id" = some (.vnum ident) ∧
      lookupKey (setKey (setKey props "id" (.vnum ident)) "labels"
        (.varr (labels.map Value.vstr))) "labels" =
          some (.varr (labels.map Value.vstr))) ∧
    transformValue (.vnode [("name", .vstr "A")] 7 ["Person"]) =
      .vobj [("name", .vstr "A"), ("id", .vnum 7), ("labels", .varr [.vstr "Person"])] := by
  refine ⟨fun props ident labels => rfl, fun props ident labels k hk1 hk2 => ?_,
    fun props ident labels => ⟨?_, ?_⟩, rfl⟩
  · rw [lookupKey_setKey_other _ _ _ _ hk2, lookupKey_setKey_other _ _ _ _ hk1]
  · rw [lookupKey_setKey_other _ _ _ _ (by decide : ("id" : String) ≠ "labels")]
    exact lookupKey_setKey_same _ _ _
  · exact lookupKey_setKey_same _ _ _

/-- Witness for C7: in the spec's example the declared property survives and
`id`/`labels` read back the identity and labels. -/
theorem transformValue_node_w :
    lookupKey (setKey (setKey [("name", Value.vstr "A")] "id" (.vnum 7)) "labels"
      (.varr (["Person"].map Value.vstr))) "name" = some (Value.vstr "A") := by
  have h := (transformValue_node).2.1 [("name", Value.vstr "A")] 7 ["Person"] "name"
      (by decide) (by decide)
  rw [h]
  rfl

mutual

/-- The normalizer fixes every already-plain value. -/
theorem transformValue_fix_of_plain (v : Value) (h : isPlain v = true) :
    transformValue v = v := by
  cases v with
  | vnull => rfl
  | vbool b => rfl
  | vnum n => rfl
  | vstr s => rfl
  | vint n => simp [isPlain] at h
  | vnode props ident labels => simp [isPlain] at h
  | vrel props ident rtype startId endId => simp [isPlain] at h
  | vpath segments => simp [isPlain] at h
  | varr items =>
      have hl : isPlainList items = true := by simpa [isPlain] using h
      simp [transformValue, transformList_fix_of_plain items hl]
  | vobj fields =>
      have hf : isPlainFields fields = true := by simpa [isPlain] using h
      simp [transformValue, transformFields_fix_of_plain fields hf]

/-- The normalizer fixes every list of already-plain values. -/
theorem transformList_fix_of_plain (l : List Value) (h : isPlainList l = true) :
    transformList l = l := by
  cases l with
  | nil => rfl
  | cons v vs =>
      have hv : isPlain v = true := by
        have := h; simp [isPlainList, Bool.and_eq_true] at this; exact this.1
      have hvs : isPlainList vs = true := by
        have := h; simp [isPlainList, Bool.and_eq_true] at this; exact this.2
      simp [transformList, transformValue_fix_of_plain v hv,
        transformList_fix_of_plain vs hvs]

/-- The normalizer fixes every field list with already-plain values. -/
theorem transformFields_fix_of_plain (fl : List (String × Value))
    (h : isPlainFields fl = true) : transformFields fl = fl := by
  cases fl with
  | nil => rfl
  | cons kv rest =>
      have hv : isPlain kv.2 = true := by
        have := h
        cases kv with
        | mk k v => simp [isPlainFields, Bool.and_eq_true] at this; exact this.1
      have hrest : isPlainFields rest = true := by
        have := h
        cases kv with
        | mk k v => simp [isPlainFields, Bool.and_eq_true] at this; exact this.2
      cases kv with
      | mk k v =>
          simp [transformFields, transformValue_fix_of_plain v hv,
            transformFields_fix_of_plain rest hrest]

end

/-- C8 amended: normalization returns a structurally equal value on every
input built only from the already-plain shapes (null, booleans, numbers,
strings, sequences, string-keyed mappings — no driver-typed values), i.e. it
is idempotent on plain values.  (It is *not* idempotent on all of its own
outputs, see the counterexample.) -/
theorem transformValue_fixes_plain (v : Value) (h : isPlain v = true) :
    transformValue v = v :=
  transformValue_fix_of_plain v h

/-- Witness for C8 at a concrete plain nested value. -/
theorem transformValue_fixes_plain_w : transformValue samplePlain = samplePlain :=
  transformValue_fixes_plain samplePlain (by rfl)

/-- C8 counterexample: the normalizer is not idempotent on its own output.
Node properties are spread verbatim, so a node property holding a driver
Integer survives the first pass inside the produced mapping and is converted
by a second pass, giving a different value. -/
theorem transformValue_not_idempotent_cex :
    ¬ transformValue (transformValue nodeWithIntProp) =
        transformValue nodeWithIntProp := by
  simp [nodeWithIntProp, transformValue, setKey, transformFields, transformList]

end Neo4jMcp
